import Mathlib

/-!
Shallow embedding of src/product/product.py: the Product entity and its
CSV-backed record store.

The CSV file is modelled at the granularity of Python's csv module: a file
state is either absent or a list of rows, each row the list of its field
strings (csv.writer followed by csv.reader round-trips such rows exactly,
including quoting).  Python float values are kept abstract: every definition
that serializes a price takes the str() rendering of floats as a function
argument reprF, and lookup takes the float() parser parseF; the CPython fact
float(str(x)) == x is taken as a pointwise hypothesis where a claim needs
it.  Python str() on integers is modelled by toString, and int() by the
executable decimal parser pyIntParse below, with the always-true round-trip
facts likewise taken as pointwise hypotheses.  Exceptions are modelled with
Except; print output is returned as a list of message strings.
-/

namespace InvyTrack

/-- Equality of Except values is decidable when it is on both sides. -/
instance {E A : Type} [DecidableEq E] [DecidableEq A] : DecidableEq (Except E A) := fun
  | .ok a, .ok b => decidable_of_iff (a = b) (by simp)
  | .ok _, .error _ => .isFalse (by simp)
  | .error _, .ok _ => .isFalse (by simp)
  | .error e, .error f => decidable_of_iff (e = f) (by simp)

/-- A CSV record: the list of its fields, as csv.reader yields it. -/
abbrev Row := List String

/-- State of the product file: none when the file does not exist, otherwise
the list of all its CSV rows (an existing empty file is some []). -/
abbrev FileState := Option (List Row)

/-- Python exceptions the modelled code can raise. -/
inductive PyErr
  | stopIteration
  | indexError
  | keyError
  | typeError
  | valueError
  deriving DecidableEq

/-- Rendering used for the f-string in the except-branch prints
(abbreviates CPython's str(e)). -/
def PyErr.str : PyErr → String
  | .stopIteration => "StopIteration"
  | .indexError => "list index out of range"
  | .keyError => "KeyError"
  | .typeError => "TypeError"
  | .valueError => "ValueError"

/-- In-memory Product entity (product.py, __init__ / from_existing).
String-typed fields have type Option String because csv.DictReader yields
None for columns missing from a short row and from_existing stores whatever
value it is given; none models Python None. -/
structure Product (F : Type) where
  pid : Int
  is_active : Bool
  inventory : Int
  pname : Option String
  pdescription : Option String
  pprice : F
  added_date : Option String
  ptags : Option String
  deriving DecidableEq

variable {F : Type}

/-- Product.product_columns. -/
def product_columns : Row :=
  ["pid", "is_active", "inventory", "pname", "pdescription", "pprice", "added_date", "ptags"]

/-- Python str() of a bool, as csv.writer renders the is_active field. -/
def pyBoolStr (b : Bool) : String := if b then "True" else "False"

/-- How csv.writer renders a str-or-None field: None becomes the empty
string. -/
def pyCsvStr : Option String → String
  | none => ""
  | some s => s

/-- The CSV row written for an entity by _write_to_file (and produced by
_update_file for the row it rewrites): str()/csv renderings of the eight
fields in column order. -/
def productRow (reprF : F → String) (p : Product F) : Row :=
  [toString p.pid, pyBoolStr p.is_active, toString p.inventory, pyCsvStr p.pname,
    pyCsvStr p.pdescription, reprF p.pprice, pyCsvStr p.added_date, pyCsvStr p.ptags]

/-- Product._generate_pid: next(reader) skips the header row, the remaining
rows are counted and 1 is added; FileNotFoundError yields 1.  On a file
that exists but has no rows, next(reader) raises StopIteration, which no
handler catches. -/
def generate_pid : FileState → Except PyErr Int
  | none => .ok 1
  | some [] => .error .stopIteration
  | some (_ :: rest) => .ok (rest.length + 1)

/-- Product._file_exists: open for reading succeeds exactly when the file
exists (an empty existing file still opens). -/
def file_exists (fs : FileState) : Bool := fs.isSome

/-- Product._write_to_file: the header is written only when _file_exists()
returned false; then the entity row is appended; open("a") creates the file
when absent. -/
def write_to_file (reprF : F → String) (p : Product F) (fs : FileState) : FileState :=
  match fs with
  | none => some [product_columns, productRow reprF p]
  | some rows => some (rows ++ [productRow reprF p])

/-- Product.__init__: generate the pid, set is_active to true, stamp the
current date (passed here as today), and append the row to the file.  A
StopIteration from _generate_pid propagates. -/
def create (reprF : F → String) (pname pdescription : String) (inventory : Int)
    (pprice : F) (ptags : String) (today : String) (fs : FileState) :
    Except PyErr (Product F × FileState) :=
  match generate_pid fs with
  | .error e => .error e
  | .ok pid =>
    let p : Product F :=
      ⟨pid, true, inventory, some pname, some pdescription, pprice, some today, some ptags⟩
    .ok (p, write_to_file reprF p fs)

/-- The assignment block row[1] .. row[5], row[7] of _update_file.  Each
Python assignment raises IndexError when the index is out of range and
List.set keeps the length, so the block succeeds exactly when the row has
at least 8 fields; a failure aborts _update_file before the file is
rewritten, so the partial in-place mutation is never observable. -/
def applyUpdate (reprF : F → String) (p : Product F) (r : Row) : Except PyErr Row :=
  if 7 < r.length then
    .ok ((((((r.set 1 (pyBoolStr p.is_active)).set 2 (toString p.inventory)).set 3
      (pyCsvStr p.pname)).set 4 (pyCsvStr p.pdescription)).set 5
      (reprF p.pprice)).set 7 (pyCsvStr p.ptags))
  else .error .indexError

/-- The for-row loop of _update_file: the first row whose field 0 equals
str(self.pid) receives the assignments, then break; row[0] raises
IndexError on an empty row. -/
def updateRows (reprF : F → String) (p : Product F) : List Row → Except PyErr (List Row)
  | [] => .ok []
  | r :: rs =>
    match r.head? with
    | none => .error .indexError
    | some s =>
      if s = toString p.pid then
        match applyUpdate reprF p r with
        | .ok r' => .ok (r' :: rs)
        | .error e => .error e
      else
        match updateRows reprF p rs with
        | .ok rs' => .ok (r :: rs')
        | .error e => .error e

/-- Product._update_file: read all rows, update the first matching row in
memory, rewrite the whole file.  FileNotFoundError and the generic except
branch print a diagnostic and leave the file as it was (the rewrite is
never reached). -/
def update_file (reprF : F → String) (p : Product F) (fs : FileState) :
    FileState × List String :=
  match fs with
  | none => (none, ["Error: Product file not found."])
  | some rows =>
    match updateRows reprF p rows with
    | .ok rows' => (some rows', [])
    | .error e => (some rows, ["Unexpected error: " ++ e.str])

/-- Product.set_is_active. -/
def set_is_active (reprF : F → String) (p : Product F) (b : Bool) (fs : FileState) :
    Product F × FileState × List String :=
  let p' := { p with is_active := b }
  let u := update_file reprF p' fs
  (p', u.1, u.2)

/-- Product.set_pname. -/
def set_pname (reprF : F → String) (p : Product F) (v : String) (fs : FileState) :
    Product F × FileState × List String :=
  let p' := { p with pname := some v }
  let u := update_file reprF p' fs
  (p', u.1, u.2)

/-- Product.set_pdescription. -/
def set_pdescription (reprF : F → String) (p : Product F) (v : String) (fs : FileState) :
    Product F × FileState × List String :=
  let p' := { p with pdescription := some v }
  let u := update_file reprF p' fs
  (p', u.1, u.2)

/-- Product.set_pprice. -/
def set_pprice (reprF : F → String) (p : Product F) (v : F) (fs : FileState) :
    Product F × FileState × List String :=
  let p' := { p with pprice := v }
  let u := update_file reprF p' fs
  (p', u.1, u.2)

/-- Product.set_ptags. -/
def set_ptags (reprF : F → String) (p : Product F) (v : String) (fs : FileState) :
    Product F × FileState × List String :=
  let p' := { p with ptags := some v }
  let u := update_file reprF p' fs
  (p', u.1, u.2)

/-- Product.add_inventory: requires num > 0, otherwise prints the
diagnostic and performs no mutation. -/
def add_inventory (reprF : F → String) (p : Product F) (num : Int) (fs : FileState) :
    Product F × FileState × List String :=
  if 0 < num then
    let p' := { p with inventory := p.inventory + num }
    let u := update_file reprF p' fs
    (p', u.1, u.2)
  else
    (p, fs, ["Error: Cannot add non-positive inventory."])

/-- Product.remove_inventory: requires 0 < num ≤ inventory, otherwise
prints the diagnostic and performs no mutation. -/
def remove_inventory (reprF : F → String) (p : Product F) (num : Int) (fs : FileState) :
    Product F × FileState × List String :=
  if 0 < num ∧ num ≤ p.inventory then
    let p' := { p with inventory := p.inventory - num }
    let u := update_file reprF p' fs
    (p', u.1, u.2)
  else
    (p, fs, ["Error: Invalid inventory removal amount."])

/-- Index at which csv.DictReader's row dict stores field f: the last
occurrence of f in the header (dict(zip(header, row)) lets a later
duplicate key win). -/
def lastIdx (hdr : Row) (f : String) : Option Nat :=
  ((List.range hdr.length).filter (fun i => hdr.get? i = some f)).getLast?

/-- row[f] on a csv.DictReader row dict: KeyError when f is not a header
field; None (restval) when the row is shorter than the header. -/
def dictGet (hdr r : Row) (f : String) : Except PyErr (Option String) :=
  match lastIdx hdr f with
  | none => .error .keyError
  | some i => .ok r[i]?

/-- Value of a decimal digit character. -/
def digitVal (c : Char) : Option Nat :=
  if '0' <= c && c <= '9' then some (c.toNat - '0'.toNat) else none

/-- Accumulating decimal read of a digit list; none on a non-digit. -/
def natOfDigitsAux : List Char → Nat → Option Nat
  | [], acc => some acc
  | c :: cs, acc =>
    match digitVal c with
    | some d => natOfDigitsAux cs (acc * 10 + d)
    | none => none

/-- A non-empty all-digit list read as a decimal number. -/
def natOfDigits : List Char → Option Nat
  | [] => none
  | cs => natOfDigitsAux cs 0

/-- Python int() on a string: optional leading minus sign followed by
decimal digits (this covers every string str() produces; Python's extra
tolerance for whitespace, a plus sign and underscores is not exercised by
the modelled code). -/
def pyIntParse (s : String) : Option Int :=
  match s.toList with
  | [] => none
  | c :: cs =>
    if c = '-' then (natOfDigits cs).map (fun n => -(n : Int))
    else (natOfDigits (c :: cs)).map (fun n => (n : Int))

/-- Python int() applied to a DictReader field value: int(None) raises
TypeError, an unparsable string raises ValueError. -/
def pyInt : Option String → Except PyErr Int
  | none => .error .typeError
  | some s =>
    match pyIntParse s with
    | some n => .ok n
    | none => .error .valueError

/-- Python float() applied to a DictReader field value, with the float
parser abstract. -/
def pyFloat (parseF : String → Option F) : Option String → Except PyErr F
  | none => .error .typeError
  | some s =>
    match parseF s with
    | some v => .ok v
    | none => .error .valueError

/-- int(row["pid"]) for one scanned row of get_product. -/
def rowPid (hdr r : Row) : Except PyErr Int := do
  let v ← dictGet hdr r "pid"
  pyInt v

/-- The from_existing call of get_product with its coercions, arguments
evaluated in source order: int(row["pid"]), row["is_active"] == "True",
int(row["inventory"]), row["pname"], row["pdescription"],
float(row["pprice"]), row["added_date"], row["ptags"]. -/
def hydrateRow (parseF : String → Option F) (hdr r : Row) : Except PyErr (Product F) := do
  let pidv ← rowPid hdr r
  let isav ← dictGet hdr r "is_active"
  let invv ← dictGet hdr r "inventory" >>= pyInt
  let pnamev ← dictGet hdr r "pname"
  let pdescv ← dictGet hdr r "pdescription"
  let ppricev ← dictGet hdr r "pprice" >>= pyFloat parseF
  let datev ← dictGet hdr r "added_date"
  let ptagsv ← dictGet hdr r "ptags"
  return ⟨pidv, isav == some "True", invv, pnamev, pdescv, ppricev, datev, ptagsv⟩

/-- The for-row loop of get_product over the data rows (the DictReader has
consumed the first row as field names). -/
def scanRows (parseF : String → Option F) (pid : Int) (hdr : Row) :
    List Row → Except PyErr (Option (Product F))
  | [] => .ok none
  | r :: rs => do
    let pv ← rowPid hdr r
    if pv = pid then
      let p ← hydrateRow parseF hdr r
      return some p
    else
      scanRows parseF pid hdr rs

/-- The not-found print of get_product. -/
def notFoundMsg (pid : Int) : String :=
  "Error: Product with ID " ++ toString pid ++ " not found."

/-- Product.get_product: DictReader scan by id.  A missing file prints the
file-not-found diagnostic; a ValueError from int()/float() prints the
malformed-data diagnostic; any other exception prints the unexpected-error
diagnostic; an exhausted loop prints the not-found diagnostic.  All paths
return None except a successful match. -/
def get_product (parseF : String → Option F) (pid : Int) (fs : FileState) :
    Option (Product F) × List String :=
  match fs with
  | none => (none, ["Error: Product file not found."])
  | some [] => (none, [notFoundMsg pid])
  | some (hdr :: rows) =>
    match scanRows parseF pid hdr rows with
    | .ok (some p) => (some p, [])
    | .ok none => (none, [notFoundMsg pid])
    | .error .valueError => (none, ["Error: Data in the product file is malformed."])
    | .error e => (none, ["Unexpected error: " ++ e.str])

/-- The mutating operations of the Product entity, for claims that
quantify over all of them. -/
inductive Op (F : Type)
  | setIsActive (b : Bool)
  | setPname (v : String)
  | setPdescription (v : String)
  | setPprice (v : F)
  | setPtags (v : String)
  | addInventory (n : Int)
  | removeInventory (n : Int)

/-- Dispatch of an Op to the corresponding method. -/
def applyOp (reprF : F → String) (op : Op F) (p : Product F) (fs : FileState) :
    Product F × FileState × List String :=
  match op with
  | .setIsActive b => set_is_active reprF p b fs
  | .setPname v => set_pname reprF p v fs
  | .setPdescription v => set_pdescription reprF p v fs
  | .setPprice v => set_pprice reprF p v fs
  | .setPtags v => set_ptags reprF p v fs
  | .addInventory n => add_inventory reprF p n fs
  | .removeInventory n => remove_inventory reprF p n fs

/-- Observation used by the spec: number of data rows of a file state, the
header row not counted; 0 when the file is absent or empty. -/
def dataRowCount : FileState → Nat
  | none => 0
  | some [] => 0
  | some (_ :: rest) => rest.length

/-- Entities whose str-typed fields are actual strings (not Python None);
every entity built by the constructor or the setters is wf. -/
def wf (p : Product F) : Prop :=
  p.pname.isSome ∧ p.pdescription.isSome ∧ p.added_date.isSome ∧ p.ptags.isSome

/-- Rows scanned before the target: their pid field parses to an id other
than the target id. -/
def preOk (pid : Int) (hdr : Row) (pre : List Row) : Prop :=
  ∀ r ∈ pre, ∃ m, rowPid hdr r = .ok m ∧ m ≠ pid

/-- A store whose first row is the canonical header and whose first row
with id str(p.pid) is exactly the serialized row of p. -/
def insyncFile (reprF : F → String) (p : Product F) (pre post : List Row) : FileState :=
  some (product_columns :: (pre ++ productRow reprF p :: post))

/-- Concrete stand-in for the abstract float type in witnesses: a two-value
type with an injective str() rendering. -/
def floatReprB : Bool → String
  | true => "9.99"
  | false => "0.5"

/-- float() parser matching floatReprB on its range. -/
def floatParseB (s : String) : Option Bool :=
  if s = "9.99" then some true
  else if s = "0.5" then some false
  else none

/-- Concrete entity used by witnesses and counterexamples. -/
def pEx : Product Bool :=
  ⟨1, true, 10, some "Widget", some "A widget", true, some "2024-01-01", some "tag1|tag2"⟩

/-- Concrete one-product file state used by witnesses. -/
def fsEx : FileState := some [product_columns, productRow floatReprB pEx]


/-! ## Helper lemmas -/


theorem exc_bind_ok {A B : Type} (a : A) (f : A → Except PyErr B) :
    (Except.ok a >>= f) = f a := rfl

theorem exc_map_ok {A B : Type} (a : A) (f : A → B) :
    (f <$> (Except.ok a : Except PyErr A)) = .ok (f a) := rfl

theorem exc_bind_err {A B : Type} (e : PyErr) (f : A → Except PyErr B) :
    ((Except.error e : Except PyErr A) >>= f) = .error e := rfl

theorem dictGet_pid (r : Row) : dictGet product_columns r "pid" = .ok r[0]? := rfl
theorem dictGet_isa (r : Row) : dictGet product_columns r "is_active" = .ok r[1]? := rfl
theorem dictGet_inv (r : Row) : dictGet product_columns r "inventory" = .ok r[2]? := rfl
theorem dictGet_pn (r : Row) : dictGet product_columns r "pname" = .ok r[3]? := rfl
theorem dictGet_pd (r : Row) : dictGet product_columns r "pdescription" = .ok r[4]? := rfl
theorem dictGet_pp (r : Row) : dictGet product_columns r "pprice" = .ok r[5]? := rfl
theorem dictGet_ad (r : Row) : dictGet product_columns r "added_date" = .ok r[6]? := rfl
theorem dictGet_pt (r : Row) : dictGet product_columns r "ptags" = .ok r[7]? := rfl

theorem pyBoolStr_beq (b : Bool) : (pyBoolStr b == "True") = b := by
  cases b <;> rfl

theorem rowPid_pc (a : String) (t : List String) :
    rowPid product_columns (a :: t) = pyInt (some a) := by
  simp [rowPid, dictGet_pid, exc_bind_ok]

theorem hydrateRow_productRow (reprF : F → String) (parseF : String → Option F) (p : Product F)
    (hpid : pyIntParse (toString p.pid) = some p.pid)
    (hinv : pyIntParse (toString p.inventory) = some p.inventory)
    (hpr : parseF (reprF p.pprice) = some p.pprice) :
    hydrateRow parseF product_columns (productRow reprF p) =
      .ok ⟨p.pid, p.is_active, p.inventory, some (pyCsvStr p.pname),
        some (pyCsvStr p.pdescription), p.pprice, some (pyCsvStr p.added_date),
        some (pyCsvStr p.ptags)⟩ := by
  simp [hydrateRow, rowPid, productRow, dictGet_pid, dictGet_isa, dictGet_inv, dictGet_pn,
    dictGet_pd, dictGet_pp, dictGet_ad, dictGet_pt, pyInt, pyFloat, hpid, hinv, hpr,
    pyBoolStr_beq, exc_bind_ok]


theorem hydrateRow_productRow_self (reprF : F → String) (parseF : String → Option F)
    (p : Product F) (hw : wf p)
    (hpid : pyIntParse (toString p.pid) = some p.pid)
    (hinv : pyIntParse (toString p.inventory) = some p.inventory)
    (hpr : parseF (reprF p.pprice) = some p.pprice) :
    hydrateRow parseF product_columns (productRow reprF p) = .ok p := by
  obtain ⟨h1, h2, h3, h4⟩ := hw
  obtain ⟨a, ha⟩ := Option.isSome_iff_exists.mp h1
  obtain ⟨b, hb⟩ := Option.isSome_iff_exists.mp h2
  obtain ⟨c, hc⟩ := Option.isSome_iff_exists.mp h3
  obtain ⟨d, hd⟩ := Option.isSome_iff_exists.mp h4
  rw [hydrateRow_productRow reprF parseF p hpid hinv hpr, ha, hb, hc, hd]
  cases p
  simp_all [pyCsvStr]


theorem scanRows_skip (parseF : String → Option F) (pid : Int) (hdr : Row)
    (pre rest : List Row) (hpre : preOk pid hdr pre) :
    scanRows parseF pid hdr (pre ++ rest) = scanRows parseF pid hdr rest := by
  induction pre with
  | nil => rfl
  | cons r rs ih =>
    obtain ⟨m, hm, hne⟩ := hpre r (by simp)
    have ih2 := ih (fun x hx => hpre x (by simp [hx]))
    simp [scanRows, hm, exc_bind_ok, if_neg hne, ih2]

theorem get_product_insync (reprF : F → String) (parseF : String → Option F)
    (p : Product F) (pre post : List Row) (hw : wf p)
    (hpid : pyIntParse (toString p.pid) = some p.pid)
    (hinv : pyIntParse (toString p.inventory) = some p.inventory)
    (hpr : parseF (reprF p.pprice) = some p.pprice)
    (hpre : preOk p.pid product_columns pre) :
    get_product parseF p.pid (some (product_columns :: (pre ++ productRow reprF p :: post))) =
      (some p, []) := by
  have hrow : rowPid product_columns (productRow reprF p) = pyInt (some (toString p.pid)) := rfl
  have hscan : scanRows parseF p.pid product_columns (pre ++ productRow reprF p :: post) =
      .ok (some p) := by
    rw [scanRows_skip parseF p.pid product_columns pre _ hpre]
    simp [scanRows, hrow, pyInt, hpid, exc_bind_ok,
      hydrateRow_productRow_self reprF parseF p hw hpid hinv hpr, exc_map_ok]
  simp [get_product, hscan]
theorem pyIntParse_roundtrip_ne (pid : Int)
    (hrt : pyIntParse (toString pid) = some pid) : "pid" ≠ toString pid := by
  intro h
  rw [← h] at hrt
  have : pyIntParse "pid" = none := by decide
  rw [this] at hrt
  cases hrt

theorem applyUpdate_productRow (reprF : F → String) (p p' : Product F)
    (hpid : p'.pid = p.pid) (hdate : p'.added_date = p.added_date) :
    applyUpdate reprF p' (productRow reprF p) = .ok (productRow reprF p') := by
  simp [applyUpdate, productRow, List.set, hpid, hdate]

theorem updateRows_skip (reprF : F → String) (p : Product F) (pre rest out : List Row)
    (hpre : ∀ r ∈ pre, ∃ s, r.head? = some s ∧ s ≠ toString p.pid)
    (hrest : updateRows reprF p rest = .ok out) :
    updateRows reprF p (pre ++ rest) = .ok (pre ++ out) := by
  induction pre with
  | nil => simpa using hrest
  | cons r rs ih =>
    obtain ⟨s, hs, hne⟩ := hpre r (by simp)
    have ih2 := ih (fun x hx => hpre x (by simp [hx]))
    simp [updateRows, hs, if_neg hne, ih2]

theorem preOk_head (pid : Int) (pre : List Row) (hrt : pyIntParse (toString pid) = some pid)
    (hpre : preOk pid product_columns pre) :
    ∀ r ∈ pre, ∃ s, r.head? = some s ∧ s ≠ toString pid := by
  intro r hr
  obtain ⟨m, hm, hne⟩ := hpre r hr
  cases r with
  | nil =>
    rw [rowPid, dictGet_pid] at hm
    simp [exc_bind_ok, pyInt] at hm
  | cons a t =>
    rw [rowPid_pc] at hm
    refine ⟨a, rfl, ?_⟩
    intro h
    rw [h] at hm
    simp [pyInt, hrt] at hm
    omega

theorem update_file_insync (reprF : F → String) (p p' : Product F) (pre post : List Row)
    (hpid : p'.pid = p.pid) (hdate : p'.added_date = p.added_date)
    (hrt : pyIntParse (toString p.pid) = some p.pid)
    (hpre : preOk p.pid product_columns pre) :
    update_file reprF p' (some (product_columns :: (pre ++ productRow reprF p :: post))) =
      (some (product_columns :: (pre ++ productRow reprF p' :: post)), []) := by
  have hhd : ("pid" : String) ≠ toString p'.pid := by
    rw [hpid]; exact pyIntParse_roundtrip_ne p.pid hrt
  have htarget : updateRows reprF p' (productRow reprF p :: post) =
      .ok (productRow reprF p' :: post) := by
    have hhead : (productRow reprF p).head? = some (toString p.pid) := rfl
    simp [updateRows, hhead, ← hpid, applyUpdate_productRow reprF p p' hpid hdate]
  have hpre2 : ∀ r ∈ pre, ∃ s, r.head? = some s ∧ s ≠ toString p'.pid := by
    rw [hpid]; exact preOk_head p.pid pre hrt hpre
  have hrows := updateRows_skip reprF p' pre (productRow reprF p :: post) _ hpre2 htarget
  have hcols : updateRows reprF p' (product_columns :: (pre ++ productRow reprF p :: post)) =
      .ok (product_columns :: (pre ++ productRow reprF p' :: post)) := by
    have hh : product_columns.head? = some "pid" := rfl
    simp [updateRows, hh, hrows]
    exact fun h => absurd h hhd
  simp [update_file, hcols]

theorem applyUpdate_idem (reprF : F → String) (p : Product F) {r r' : Row}
    (h : applyUpdate reprF p r = .ok r') : applyUpdate reprF p r' = .ok r' := by
  unfold applyUpdate at h ⊢
  by_cases hl : 7 < r.length
  · rw [if_pos hl] at h
    injection h with h
    subst h
    rw [if_pos (by simpa using hl)]
    congr 1
    apply List.ext_getElem?
    intro j
    simp only [List.getElem?_set, List.length_set]
    split_ifs <;> simp_all
  · rw [if_neg hl] at h
    cases h

theorem applyUpdate_headq (reprF : F → String) (p : Product F) {r r' : Row}
    (h : applyUpdate reprF p r = .ok r') : r'.head? = r.head? := by
  unfold applyUpdate at h
  by_cases hl : 7 < r.length
  · rw [if_pos hl] at h
    injection h with h
    subst h
    rw [List.head?_eq_getElem?, List.head?_eq_getElem?]
    simp
  · rw [if_neg hl] at h
    cases h

theorem updateRows_idem (reprF : F → String) (p : Product F) :
    ∀ {rows rows' : List Row}, updateRows reprF p rows = .ok rows' →
      updateRows reprF p rows' = .ok rows'
  | [], _, h => by
    cases h
    rfl
  | r :: rs, rows', h => by
    rw [updateRows] at h
    cases hh : r.head? with
    | none =>
      simp only [hh] at h
      cases h
    | some s =>
      simp only [hh] at h
      by_cases hs : s = toString p.pid
      · rw [if_pos hs] at h
        cases ha : applyUpdate reprF p r with
        | error e =>
          simp only [ha] at h
          cases h
        | ok r2 =>
          simp only [ha] at h
          injection h with h
          subst h
          rw [updateRows]
          simp only [applyUpdate_headq reprF p ha, hh]
          rw [if_pos hs]
          simp only [applyUpdate_idem reprF p ha]
      · rw [if_neg hs] at h
        cases hrec : updateRows reprF p rs with
        | error e =>
          simp only [hrec] at h
          cases h
        | ok rs2 =>
          simp only [hrec] at h
          injection h with h
          subst h
          rw [updateRows]
          simp only [hh]
          rw [if_neg hs]
          simp only [updateRows_idem reprF p hrec]

theorem update_file_idem (reprF : F → String) (p : Product F) (fs : FileState) :
    (update_file reprF p (update_file reprF p fs).1).1 = (update_file reprF p fs).1 := by
  cases fs with
  | none => rfl
  | some rows =>
    rw [update_file]
    cases hu : updateRows reprF p rows with
    | error e => simp [update_file, hu]
    | ok rows2 => simp [update_file, updateRows_idem reprF p hu]


/-! ## Claim theorems -/

/-- C10: on the reachable file state in which the product file exists but
is completely empty, id generation raises an unhandled StopIteration, so
the constructor yields no entity: Create is not total over file states. -/
theorem generate_pid_empty_file_raises :
    generate_pid (some []) = .error .stopIteration ∧
    ∀ (G : Type) (reprG : G → String) (n d : String) (inv : Int) (pr : G) (t dt : String),
      create reprG n d inv pr t dt (some []) = .error .stopIteration :=
  ⟨rfl, fun _ _ _ _ _ _ _ _ => rfl⟩

/-- C1 counterexample: at the existing-but-empty prior file state the
constructor returns no entity at all (StopIteration propagates), so no id
is assigned and the data-row count does not grow. -/
theorem create_empty_file_counterexample :
    create floatReprB "Widget" "A widget" 10 true "tag1|tag2" "2024-01-01" (some []) =
      .error .stopIteration ∧
    ¬∃ p fs', create floatReprB "Widget" "A widget" 10 true "tag1|tag2" "2024-01-01"
      (some []) = .ok (p, fs') := by
  refine ⟨rfl, ?_⟩
  rintro ⟨p, fs', h⟩
  simp [create, generate_pid] at h

/-- C1 (amended): for every prior file state that is either absent or has
at least one row, construction succeeds, the new entity's id equals the
data-row count at call time plus 1 (1 when the file does not exist, the
header row not counted), and the data-row count grows by exactly 1. -/
theorem create_assigns_next_pid (reprF : F → String) (n d : String) (inv : Int) (pr : F)
    (t dt : String) (fs : FileState) (hfs : fs = none ∨ ∃ hd l, fs = some (hd :: l)) :
    ∃ p fs', create reprF n d inv pr t dt fs = .ok (p, fs') ∧
      p.pid = (dataRowCount fs : Int) + 1 ∧ dataRowCount fs' = dataRowCount fs + 1 := by
  rcases hfs with h | ⟨hd, l, h⟩ <;> subst h
  · exact ⟨_, _, rfl, by simp [dataRowCount], by simp [create, generate_pid, write_to_file,
      dataRowCount]⟩
  · exact ⟨_, _, rfl, by simp [dataRowCount, create, generate_pid],
      by simp [create, generate_pid, write_to_file, dataRowCount]⟩

/-- C1 witness: creation in an absent-file store gets id 1 and leaves one
data row. -/
theorem create_assigns_next_pid_witness :
    ∃ p fs', create floatReprB "Widget" "A widget" 10 true "tag1|tag2" "2024-01-01" none =
      .ok (p, fs') ∧ p.pid = (dataRowCount none : Int) + 1 ∧
      dataRowCount fs' = dataRowCount none + 1 :=
  create_assigns_next_pid floatReprB "Widget" "A widget" 10 true "tag1|tag2" "2024-01-01"
    none (Or.inl rfl)

/-- C6 (amended): the append path writes the header row first exactly when
the file does not exist (creating it), and appends the entity row as the
last line; on an existing file, empty included, only the row is appended. -/
theorem write_to_file_append (reprF : F → String) (p : Product F) :
    write_to_file reprF p none = some [product_columns, productRow reprF p] ∧
    ∀ rows, write_to_file reprF p (some rows) = some (rows ++ [productRow reprF p]) :=
  ⟨rfl, fun _ => rfl⟩

/-- C6 counterexample: on the existing-but-empty file the append path does
not write the header row first, because _write_to_file checks existence,
not emptiness. -/
theorem write_to_file_empty_no_header :
    write_to_file floatReprB pEx (some []) = some [productRow floatReprB pEx] ∧
    productRow floatReprB pEx ≠ product_columns :=
  ⟨rfl, by decide⟩

/-- No row of the table has first field str(pid), so the loop of
_update_file updates nothing and the rewrite reproduces the rows. -/
theorem updateRows_no_match (reprF : F → String) (p : Product F) (rows : List Row)
    (h : ∀ r ∈ rows, ∃ s, r.head? = some s ∧ s ≠ toString p.pid) :
    updateRows reprF p rows = .ok rows := by
  induction rows with
  | nil => rfl
  | cons r rs ih =>
    obtain ⟨s, hs, hne⟩ := h r (by simp)
    simp [updateRows, hs, if_neg hne, ih (fun x hx => h x (by simp [hx]))]

/-- C5 (amended): when the file exists and every row is non-empty with
first field different from str(id), the commit path rewrites the whole
file with unchanged contents and reports nothing. -/
theorem update_file_no_match (reprF : F → String) (p : Product F) (rows : List Row)
    (h : ∀ r ∈ rows, ∃ s, r.head? = some s ∧ s ≠ toString p.pid) :
    update_file reprF p (some rows) = (some rows, []) := by
  simp [update_file, updateRows_no_match reprF p rows h]

/-- C5 witness: rewriting a header-only table for id 1 leaves it unchanged
with no diagnostic. -/
theorem update_file_no_match_witness :
    update_file floatReprB pEx (some [product_columns]) = (some [product_columns], []) := by
  apply update_file_no_match
  intro r hr
  simp at hr
  subst hr
  exact ⟨"pid", rfl, by decide⟩

/-- C5 counterexample: with no matching row, a missing file or an empty row
still makes _update_file report an error, against the claim's every-state
no-error contract. -/
theorem update_file_missing_file_counterexample :
    update_file floatReprB pEx none = (none, ["Error: Product file not found."]) ∧
    update_file floatReprB pEx (some [product_columns, []]) =
      (some [product_columns, []], ["Unexpected error: list index out of range"]) :=
  ⟨by decide, by decide⟩


/-- C2: every entity operation, accepted or rejected, preserves
non-negativity of the in-memory inventory. -/
theorem inventory_nonneg_invariant (reprF : F → String) (op : Op F) (p : Product F)
    (fs : FileState) (h : 0 ≤ p.inventory) :
    0 ≤ (applyOp reprF op p fs).1.inventory := by
  cases op <;>
    simp [applyOp, set_is_active, set_pname, set_pdescription, set_pprice, set_ptags,
      add_inventory, remove_inventory] <;>
    first
      | omega
      | (split <;> simp <;> omega)

/-- C2 witness: removing 5 of 10 keeps inventory non-negative. -/
theorem inventory_nonneg_invariant_witness :
    0 ≤ (applyOp floatReprB (Op.removeInventory 5) pEx fsEx).1.inventory :=
  inventory_nonneg_invariant floatReprB (Op.removeInventory 5) pEx fsEx (by decide)

/-- C3: out-of-range inventory amounts leave the entity and the file
untouched and print the invalid-operation diagnostic; in-range amounts
change inventory by exactly the amount and commit through _update_file. -/
theorem inventory_guards (reprF : F → String) (p : Product F) (n : Int) (fs : FileState) :
    (n ≤ 0 → add_inventory reprF p n fs =
      (p, fs, ["Error: Cannot add non-positive inventory."])) ∧
    (n ≤ 0 ∨ p.inventory < n → remove_inventory reprF p n fs =
      (p, fs, ["Error: Invalid inventory removal amount."])) ∧
    (0 < n → (add_inventory reprF p n fs).1.inventory = p.inventory + n ∧
      (add_inventory reprF p n fs).2 =
        update_file reprF { p with inventory := p.inventory + n } fs) ∧
    (0 < n → n ≤ p.inventory → (remove_inventory reprF p n fs).1.inventory = p.inventory - n ∧
      (remove_inventory reprF p n fs).2 =
        update_file reprF { p with inventory := p.inventory - n } fs) := by
  refine ⟨?_, ?_, ?_, ?_⟩
  · intro hn
    rw [add_inventory, if_neg (by omega)]
  · intro hn
    rw [remove_inventory, if_neg (by omega)]
  · intro hn
    rw [add_inventory, if_pos hn]
    exact ⟨rfl, rfl⟩
  · intro hn hn2
    rw [remove_inventory, if_pos ⟨hn, hn2⟩]
    exact ⟨rfl, rfl⟩

/-- C3 witness: add_inventory rejects -1 with the diagnostic and leaves
state unchanged; add_inventory 5 sets inventory to 15. -/
theorem inventory_guards_witness :
    add_inventory floatReprB pEx (-1) fsEx =
      (pEx, fsEx, ["Error: Cannot add non-positive inventory."]) ∧
    (add_inventory floatReprB pEx 5 fsEx).1.inventory = 15 := by
  refine ⟨(inventory_guards floatReprB pEx (-1) fsEx).1 (by decide), ?_⟩
  have h := ((inventory_guards floatReprB pEx 5 fsEx).2.2.1 (by decide)).1
  rw [h]
  decide

/-- C9: repeating set_pname with the same value yields exactly the
persisted file state (and entity) of the single call. -/
theorem set_pname_idempotent (reprF : F → String) (p : Product F) (v : String)
    (fs : FileState) :
    (set_pname reprF (set_pname reprF p v fs).1 v (set_pname reprF p v fs).2.1).2.1 =
      (set_pname reprF p v fs).2.1 ∧
    (set_pname reprF (set_pname reprF p v fs).1 v (set_pname reprF p v fs).2.1).1 =
      (set_pname reprF p v fs).1 := by
  constructor
  · show (update_file reprF _ _).1 = _
    have hp : { (set_pname reprF p v fs).1 with pname := some v } =
        { p with pname := some v } := rfl
    rw [hp]
    exact update_file_idem reprF { p with pname := some v } fs
  · rfl



/-- Committing any entity p2 that keeps p's id and added_date into a store
in sync with p rewrites exactly p's row, and reading that id back returns
exactly p2. -/
theorem setter_frame_core (reprF : F → String) (parseF : String → Option F)
    (p p2 : Product F) (pre post : List Row)
    (hw2 : wf p2) (hpid2 : p2.pid = p.pid) (hdate : p2.added_date = p.added_date)
    (hinv2 : p2.inventory = p.inventory)
    (hpid : pyIntParse (toString p.pid) = some p.pid)
    (hinv : pyIntParse (toString p.inventory) = some p.inventory)
    (hpr2 : parseF (reprF p2.pprice) = some p2.pprice)
    (hpre : preOk p.pid product_columns pre) :
    update_file reprF p2 (insyncFile reprF p pre post) =
      (insyncFile reprF p2 pre post, []) ∧
    get_product parseF p.pid (insyncFile reprF p2 pre post) = (some p2, []) := by
  constructor
  · exact update_file_insync reprF p p2 pre post hpid2 hdate hpid hpre
  · have h := get_product_insync reprF parseF p2 pre post hw2
      (by rw [hpid2]; exact hpid) (by rw [hinv2]; exact hinv) hpr2
      (by rw [hpid2]; exact hpre)
    rw [← hpid2]
    exact h

/-- C4: for an entity in sync with its stored row, every setter commits
exactly its own field change and re-reading the row by id returns the
entity that differs from the old one only in the set field (id and
added_date included among the unchanged ones). -/
theorem setter_frame (reprF : F → String) (parseF : String → Option F) (p : Product F)
    (pre post : List Row) (b : Bool) (vn vd vt : String) (vF : F)
    (hw : wf p)
    (hpid : pyIntParse (toString p.pid) = some p.pid)
    (hinv : pyIntParse (toString p.inventory) = some p.inventory)
    (hpro : parseF (reprF p.pprice) = some p.pprice)
    (hprn : parseF (reprF vF) = some vF)
    (hpre : preOk p.pid product_columns pre) :
    (set_is_active reprF p b (insyncFile reprF p pre post) =
        ({ p with is_active := b }, insyncFile reprF { p with is_active := b } pre post, []) ∧
      get_product parseF p.pid (insyncFile reprF { p with is_active := b } pre post) =
        (some { p with is_active := b }, [])) ∧
    (set_pname reprF p vn (insyncFile reprF p pre post) =
        ({ p with pname := some vn }, insyncFile reprF { p with pname := some vn } pre post,
          []) ∧
      get_product parseF p.pid (insyncFile reprF { p with pname := some vn } pre post) =
        (some { p with pname := some vn }, [])) ∧
    (set_pdescription reprF p vd (insyncFile reprF p pre post) =
        ({ p with pdescription := some vd },
          insyncFile reprF { p with pdescription := some vd } pre post, []) ∧
      get_product parseF p.pid (insyncFile reprF { p with pdescription := some vd } pre post) =
        (some { p with pdescription := some vd }, [])) ∧
    (set_pprice reprF p vF (insyncFile reprF p pre post) =
        ({ p with pprice := vF }, insyncFile reprF { p with pprice := vF } pre post, []) ∧
      get_product parseF p.pid (insyncFile reprF { p with pprice := vF } pre post) =
        (some { p with pprice := vF }, [])) ∧
    (set_ptags reprF p vt (insyncFile reprF p pre post) =
        ({ p with ptags := some vt }, insyncFile reprF { p with ptags := some vt } pre post,
          []) ∧
      get_product parseF p.pid (insyncFile reprF { p with ptags := some vt } pre post) =
        (some { p with ptags := some vt }, [])) := by
  obtain ⟨w1, w2, w3, w4⟩ := hw
  refine ⟨?_, ?_, ?_, ?_, ?_⟩
  · have h := setter_frame_core reprF parseF p { p with is_active := b } pre post
      ⟨w1, w2, w3, w4⟩ rfl rfl rfl hpid hinv hpro hpre
    exact ⟨by simp [set_is_active, h.1], h.2⟩
  · have h := setter_frame_core reprF parseF p { p with pname := some vn } pre post
      ⟨rfl, w2, w3, w4⟩ rfl rfl rfl hpid hinv hpro hpre
    exact ⟨by simp [set_pname, h.1], h.2⟩
  · have h := setter_frame_core reprF parseF p { p with pdescription := some vd } pre post
      ⟨w1, rfl, w3, w4⟩ rfl rfl rfl hpid hinv hpro hpre
    exact ⟨by simp [set_pdescription, h.1], h.2⟩
  · have h := setter_frame_core reprF parseF p { p with pprice := vF } pre post
      ⟨w1, w2, w3, w4⟩ rfl rfl rfl hpid hinv hprn hpre
    exact ⟨by simp [set_pprice, h.1], h.2⟩
  · have h := setter_frame_core reprF parseF p { p with ptags := some vt } pre post
      ⟨w1, w2, w3, rfl⟩ rfl rfl rfl hpid hinv hpro hpre
    exact ⟨by simp [set_ptags, h.1], h.2⟩

/-- C4 witness: renaming the one product of a one-product store and reading
id 1 back yields the renamed entity with every other field unchanged. -/
theorem setter_frame_witness :
    get_product floatParseB pEx.pid
      (insyncFile floatReprB { pEx with pname := some "New" } [] []) =
      (some { pEx with pname := some "New" }, []) := by
  have hpre : preOk pEx.pid product_columns [] := by
    intro r hr
    simp at hr
  exact ((setter_frame floatReprB floatParseB pEx [] [] false "New" "D" "T" false
    ⟨rfl, rfl, rfl, rfl⟩ (by decide) (by decide) (by decide) (by decide) hpre).2.1).2


/-- C7: an entity freshly built by the constructor serializes to a row that
the get_product coercions hydrate back to an identical entity; creating in
an absent-file store, the full lookup also returns it. -/
theorem create_roundtrip (reprF : F → String) (parseF : String → Option F)
    (n d : String) (inv : Int) (pr : F) (t dt : String) (fs : FileState)
    (p : Product F) (fs' : FileState)
    (hc : create reprF n d inv pr t dt fs = .ok (p, fs'))
    (hpr : parseF (reprF pr) = some pr)
    (hpid : pyIntParse (toString p.pid) = some p.pid)
    (hinv : pyIntParse (toString inv) = some inv) :
    hydrateRow parseF product_columns (productRow reprF p) = .ok p ∧
    (fs = none → get_product parseF p.pid fs' = (some p, [])) := by
  rw [create] at hc
  cases hg : generate_pid fs with
  | error e =>
    rw [hg] at hc
    cases hc
  | ok pid =>
    rw [hg] at hc
    simp only [Except.ok.injEq, Prod.mk.injEq] at hc
    obtain ⟨hp, hf⟩ := hc
    have hro : hydrateRow parseF product_columns (productRow reprF p) = .ok p := by
      apply hydrateRow_productRow_self reprF parseF p
      · rw [← hp]
        exact ⟨rfl, rfl, rfl, rfl⟩
      · exact hpid
      · rw [← hp]
        exact hinv
      · rw [← hp]
        exact hpr
    refine ⟨hro, ?_⟩
    intro hfs
    subst hfs
    have h := get_product_insync reprF parseF p [] [] (by rw [← hp]; exact ⟨rfl, rfl, rfl, rfl⟩)
      hpid (by rw [← hp]; exact hinv) (by rw [← hp]; exact hpr)
      (by intro r hr; simp at hr)
    rw [← hf, hp]
    simpa [write_to_file, insyncFile] using h

/-- C7 witness: the concrete creation in an absent store hydrates back to
the same entity. -/
theorem create_roundtrip_witness :
    hydrateRow floatParseB product_columns (productRow floatReprB pEx) = .ok pEx :=
  (create_roundtrip floatReprB floatParseB "Widget" "A widget" 10 true "tag1|tag2"
    "2024-01-01" none pEx fsEx (by decide) (by decide) (by decide) (by decide)).1

/-- The scan of get_product never yields an entity when no data row's pid
field parses to the target id. -/
theorem scanRows_no_match (parseF : String → Option F) (pid : Int) (hdr : Row)
    (data : List Row) (h : ∀ r ∈ data, rowPid hdr r ≠ .ok pid) :
    scanRows parseF pid hdr data = .ok none ∨
      ∃ e, scanRows parseF pid hdr data = .error e := by
  induction data with
  | nil => exact Or.inl rfl
  | cons r rs ih =>
    cases hr : rowPid hdr r with
    | error e =>
      right
      exact ⟨e, by simp [scanRows, hr, exc_bind_err]⟩
    | ok m =>
      have hne : m ≠ pid := by
        intro hm
        exact h r (by simp) (hm ▸ hr)
      have ih2 := ih (fun x hx => h x (by simp [hx]))
      simpa [scanRows, hr, exc_bind_ok, if_neg hne] using ih2

/-- The scan returns the clean no-match result when every data row's pid
field parses to an id other than the target. -/
theorem scanRows_all_other (parseF : String → Option F) (pid : Int) (hdr : Row)
    (data : List Row) (h : ∀ r ∈ data, ∃ m, rowPid hdr r = .ok m ∧ m ≠ pid) :
    scanRows parseF pid hdr data = .ok none := by
  induction data with
  | nil => rfl
  | cons r rs ih =>
    obtain ⟨m, hm, hne⟩ := h r (by simp)
    have ih2 := ih (fun x hx => h x (by simp [hx]))
    simp [scanRows, hm, exc_bind_ok, if_neg hne, ih2]

/-- C8 (amended): when no data row's pid field parses to the target id,
lookup returns no entity (and never lets an exception escape); when in
addition every data row's pid field parses to some other integer, the
not-found diagnostic is the one reported; an empty existing file also
reports not-found. -/
theorem get_product_not_found (parseF : String → Option F) (pid : Int) (hdr : Row)
    (data : List Row) (h1 : ∀ r ∈ data, rowPid hdr r ≠ .ok pid) :
    (get_product parseF pid (some (hdr :: data))).1 = none ∧
    ((∀ r ∈ data, ∃ m, rowPid hdr r = .ok m ∧ m ≠ pid) →
      get_product parseF pid (some (hdr :: data)) = (none, [notFoundMsg pid])) ∧
    get_product parseF pid (some ([] : List Row)) = (none, [notFoundMsg pid]) := by
  refine ⟨?_, ?_, rfl⟩
  · rcases scanRows_no_match parseF pid hdr data h1 with h | ⟨e, h⟩
    · simp [get_product, h]
    · cases e <;> simp [get_product, h]
  · intro h2
    simp [get_product, scanRows_all_other parseF pid hdr data h2]

/-- C8 witness: looking up id 999 in a one-product table (id 1) reports
not-found and yields no entity. -/
theorem get_product_not_found_witness :
    get_product floatParseB 999 (some [product_columns, productRow floatReprB pEx]) =
      (none, [notFoundMsg 999]) := by
  have h1 : ∀ r ∈ [productRow floatReprB pEx],
      rowPid product_columns r ≠ Except.ok (999 : Int) := by
    intro r hr
    simp at hr
    subst hr
    decide
  have h2 : ∀ r ∈ [productRow floatReprB pEx],
      ∃ m, rowPid product_columns r = .ok m ∧ m ≠ (999 : Int) := by
    intro r hr
    simp at hr
    subst hr
    exact ⟨1, by decide, by decide⟩
  exact (get_product_not_found floatParseB 999 product_columns [productRow floatReprB pEx]
    h1).2.1 h2

/-- C8 counterexample: id 999 matches no row of this table (the one data
row's pid field does not even parse), yet the diagnostic reported is the
malformed-data one, not the not-found one. -/
theorem get_product_malformed_counterexample :
    rowPid product_columns ["x", "True", "1", "a", "b", "9.99", "2024-01-01", "t"] =
      .error .valueError ∧
    get_product floatParseB 999
      (some [product_columns, ["x", "True", "1", "a", "b", "9.99", "2024-01-01", "t"]]) =
      (none, ["Error: Data in the product file is malformed."]) ∧
    "Error: Data in the product file is malformed." ≠ notFoundMsg 999 :=
  ⟨by decide, by decide, by decide⟩

end InvyTrack
